import Mathlib

/-!
Shallow embedding of `webscraper_demo.py` (the fetch-retry-extract-enrich
pipeline of the quotes scraper), together with theorems settling the claims
about it.

Modelling conventions:
* Python strings are Lean `String`s; `str.split(sep)` and `str.strip()` are
  embedded below as `pySplit` and `pyStrip` (executable, fuel-based, so the
  kernel can evaluate them on concrete inputs).
* A parsed BeautifulSoup document is embedded structurally: only the elements
  the code selects are represented, each as an `Option` (the result of
  `select_one`, `none` = selector matched nothing).
* `make_request` performs network I/O; a fetcher is embedded as a function
  from URL to `Option document`, where `none` means the request never returns
  successfully (the `retrying` decorator in the source has no stop condition,
  so on a permanently failing URL the call never returns; either way no
  document is produced and the caller cannot continue).  The retry loop
  itself is embedded separately as `retry_loop`.
-/

/-- Python whitespace characters stripped by `str.strip()` (ASCII part). -/
def pySpace (c : Char) : Bool :=
  c = ' ' || c = '\t' || c = '\n' || c = '\r' || c = '\x0b' || c = '\x0c'

/-- Python `str.strip()`: remove leading and trailing whitespace. -/
def pyStrip (s : String) : String :=
  ⟨((s.data.dropWhile pySpace).reverse.dropWhile pySpace).reverse⟩

/-- Worker for `pySplit` on character lists.  `fuel` only bounds the recursion
(callers pass the length of the list, which always suffices, since every step
consumes at least one character). -/
def pySplitGo (sep : List Char) : Nat → List Char → List Char → List (List Char)
  | _, [], acc => [acc.reverse]
  | 0, l, acc => [acc.reverse ++ l]
  | fuel + 1, c :: rest, acc =>
    if sep.isPrefixOf (c :: rest) then
      acc.reverse :: pySplitGo sep fuel (rest.drop (sep.length - 1)) []
    else
      pySplitGo sep fuel rest (c :: acc)

/-- Python `s.split(sep)` for a nonempty separator `sep`: split `s` at every
(left-to-right, non-overlapping) occurrence of `sep`. -/
def pySplit (s sep : String) : List String :=
  (pySplitGo sep.data s.data.length s.data []).map fun l => ⟨l⟩

/-- Constant `BASE_URL = "https://quotes.toscrape.com"` (line 12). -/
def BASE_URL : String := "https://quotes.toscrape.com"

/-- Python `urllib.parse.urljoin(base, rel)`, specialised to a base of the form
`scheme://host` with empty path (which is what `BASE_URL` is): an empty
relative URL returns the base itself, an absolute URL replaces it, a
path-absolute reference is appended to the authority, and a relative path is
resolved against the empty base path. -/
def urljoin (base rel : String) : String :=
  if rel = "" then base
  else if rel.startsWith "http://" || rel.startsWith "https://" then rel
  else if rel.startsWith "/" then base ++ rel
  else base ++ "/" ++ rel

/-- The element returned by `element.select_one('span a')`: an anchor tag whose
`href` attribute may be absent (`attrs.get('href')`). -/
structure AnchorTag where
  href_attr : Option String
deriving Repr, DecidableEq

/-- One `div.quote` entry block of a list page, holding the results of the
three `select_one` lookups the code performs on it (lines 87-89):
`span.text` (its `.text`), `small.author` (its `.text`), and `span a`. -/
structure QuoteElement where
  span_text : Option String
  small_author : Option String
  span_a : Option AnchorTag
deriving Repr, DecidableEq

/-- A parsed list page: `soup.select('div.quote')` in document order (line 83). -/
structure QuotePage where
  quote_elements : List QuoteElement
deriving Repr, DecidableEq

/-- A parsed author detail page, holding the results of the two `select_one`
lookups of `scrape_author_info`: the `.text` of `p:-soup-contains("Born:")`
(line 45) and the `.text` of `div.author-description` (line 58). -/
structure AuthorPage where
  born_info : Option String
  author_description : Option String
deriving Repr, DecidableEq

/-- The `author_info` dictionary built by `scrape_author_info`: each field is
`some v` exactly when the corresponding key is set in the dict. -/
structure AuthorInfo where
  birthdate : Option String := none
  birthplace : Option String := none
  description : Option String := none
deriving Repr, DecidableEq

/-- Helper `get_text(element, selector)` (lines 112-124): `text_element` is the result
of `element.select_one(selector)`; return its text, or `""` if absent. -/
def get_text (text_element : Option String) : String :=
  match text_element with
  | some t => t
  | none => ""

/-- Helper `get_href(element, selector)` (lines 126-138): `anchor_element` is the
result of `element.select_one(selector)`; return
`anchor_element.get('href', "")` if present, `""` otherwise. -/
def get_href (anchor_element : Option AnchorTag) : String :=
  match anchor_element with
  | some a => a.href_attr.getD ""
  | none => ""

/-- The extraction part of `scrape_author_info` (lines 42-61), over an already
fetched and parsed detail page:

```
author_info = {}
born_info = soup.select_one('p:-soup-contains("Born:")')
if born_info:
    born_info_parts = born_info.text.split(': ')
    if len(born_info_parts) > 1:
        born_info_text = born_info_parts[1]
        birth_date_parts = born_info_text.split(' in ')
        if len(birth_date_parts) > 1:
            author_info['birthdate'] = birth_date_parts[0].strip()
            author_info['birthplace'] = birth_date_parts[1].strip()
        else:
            author_info['birthdate'] = born_info_text.strip()
description = soup.select_one('div.author-description')
author_info['description'] = description.text if description else ""
```

`parts[1]` with `len(parts) > 1` is the second element of the split, embedded
as the pattern `_ :: x :: _`. -/
def scrape_author_info (soup : AuthorPage) : AuthorInfo :=
  let base : AuthorInfo :=
    match soup.born_info with
    | none => {}
    | some born_info_text_full =>
      match pySplit born_info_text_full ": " with
      | _ :: born_info_text :: _ =>
        match pySplit born_info_text " in " with
        | birth_date :: birth_place :: _ =>
          { birthdate := some (pyStrip birth_date),
            birthplace := some (pyStrip birth_place) }
        | _ => { birthdate := some (pyStrip born_info_text) }
      | _ => {}
  { base with description := some (soup.author_description.getD "") }

/-- The `quote_info` dictionary built per entry (lines 96-103), the final
record shape written to the CSV; the field order mirrors the dict keys
`Quote, Author, Bio Href, Birthdate, Birthplace, Description`. -/
structure QuoteInfo where
  quote : String
  author : String
  bio_href : String
  birthdate : String
  birthplace : String
  description : String
deriving Repr, DecidableEq

/-- The body of the inner loop of `scrape_quotes` (lines 86-106) for one
`div.quote` element:

```
quote_text = get_text(element, 'span.text')
author = get_text(element, 'small.author')
bio_href = get_href(element, 'span a')
author_info_url = urljoin(BASE_URL, bio_href)
author_info = scrape_author_info(author_info_url)
quote_info = { 'Quote': quote_text, 'Author': author, 'Bio Href': bio_href,
               'Birthdate': author_info.get('birthdate', ""),
               'Birthplace': author_info.get('birthplace', ""),
               'Description': author_info.get('description', "") }
```

`detail_fetch` embeds the `make_request` call inside `scrape_author_info`
(line 39): `none` means that request never returns a document, in which case
the loop body does not complete and no record is produced. -/
def process_quote_element (detail_fetch : String → Option AuthorPage)
    (element : QuoteElement) : Option QuoteInfo :=
  let quote_text := get_text element.span_text
  let author := get_text element.small_author
  let bio_href := get_href element.span_a
  let author_info_url := urljoin BASE_URL bio_href
  match detail_fetch author_info_url with
  | none => none
  | some page =>
    let author_info := scrape_author_info page
    some { quote := quote_text, author := author, bio_href := bio_href,
           birthdate := author_info.birthdate.getD "",
           birthplace := author_info.birthplace.getD "",
           description := author_info.description.getD "" }

/-- The inner loop of `scrape_quotes` over the quote elements of one page,
appending each `quote_info` to the accumulated `quotes` list (lines 86-106). -/
def scrape_page_elements (detail_fetch : String → Option AuthorPage)
    (quotes : List QuoteInfo) (elements : List QuoteElement) :
    Option (List QuoteInfo) :=
  elements.foldlM
    (fun qs element =>
      (process_quote_element detail_fetch element).map fun quote_info =>
        qs ++ [quote_info])
    quotes

/-- Python `range(1, num_pages + 1)` (line 77): the pages `1..num_pages` in
ascending order, empty when `num_pages ≤ 0`. -/
def pages_range (num_pages : Int) : List Int :=
  (List.range num_pages.toNat).map fun i => Int.ofNat i + 1

/-- Orchestrator `scrape_quotes(url, num_pages)` (lines 63-110):

```
quotes = []
for page in range(1, num_pages + 1):
    page_url = f"{url}/page/{page}/"
    response = make_request(page_url)
    soup = BeautifulSoup(response.text, 'html.parser')
    quote_elements = soup.select('div.quote')
    for element in quote_elements: ...  # scrape_page_elements
return quotes
```

`page_fetch` embeds `make_request(page_url)` plus parsing; `none` means the
request never returns (there is no exception handler in the loop, so in that
case the run produces no list at all, embedded as the overall result `none`). -/
def scrape_quotes (page_fetch : String → Option QuotePage)
    (detail_fetch : String → Option AuthorPage)
    (url : String) (num_pages : Int) : Option (List QuoteInfo) :=
  (pages_range num_pages).foldlM
    (fun quotes page =>
      match page_fetch (s!"{url}/page/{page}/") with
      | none => none
      | some soup => scrape_page_elements detail_fetch quotes soup.quote_elements)
    []

/-- Wait (in milliseconds) inserted by
`@retry(wait_exponential_multiplier=2000, wait_exponential_max=10000)` after
the `attempt_number`-th failed call: the `retrying` library computes
`min(wait_exponential_multiplier * 2 ** attempt_number, wait_exponential_max)`. -/
def retry_wait_ms (attempt_number : Nat) : Nat :=
  min (2000 * 2 ^ attempt_number) 10000

/-- The retry loop that `@retry(wait_exponential_multiplier=2000,
wait_exponential_max=10000)` wraps around `make_request`'s body (lines 21-27).
No `stop_max_attempt_number` or `stop_max_delay` argument is passed, so the
library installs the constant-false stop predicate and retries after every
failed attempt.  `attempts n` is the outcome of the `n`-th execution of the
body (`none` = it raises); `retry_loop attempts fuel n` is `some r` when the
decorated call returns `r` within `fuel` further attempts starting at attempt
`n`, and `none` when the loop is still running after those attempts. -/
def retry_loop (attempts : Nat → Option String) : Nat → Nat → Option String
  | 0, _ => none
  | fuel + 1, n =>
    match attempts n with
    | some r => some r
    | none => retry_loop attempts fuel (n + 1)

/-- A string with no leading and no trailing Python whitespace. -/
def isStripped (s : String) : Bool :=
  (s.data.head?.all fun c => !pySpace c) &&
    (s.data.getLast?.all fun c => !pySpace c)

/-- Apply `f` to every element in order, succeeding only if every application
succeeds; the result list keeps the input order.  Used to state what the
accumulating loops of `scrape_quotes` compute. -/
def mapOption {α β : Type} (f : α → Option β) : List α → Option (List β)
  | [] => some []
  | a :: t =>
    match f a with
    | none => none
    | some b => (mapOption f t).map fun r => b :: r

/-- The records contributed by one list page, in document order: fetch the
page URL and process each `div.quote` element (derived form of the
`scrape_quotes` loop body used to state ordering properties). -/
def page_records (page_fetch : String → Option QuotePage)
    (detail_fetch : String → Option AuthorPage) (url : String) (page : Int) :
    Option (List QuoteInfo) :=
  match page_fetch (s!"{url}/page/{page}/") with
  | none => none
  | some soup => mapOption (process_quote_element detail_fetch) soup.quote_elements

/-- Test fixture: a complete entry block. -/
def e_full : QuoteElement := ⟨some "q", some "a", some ⟨some "/author/X"⟩⟩

/-- Test fixture: an entry block whose `span.text` element is missing. -/
def e_no_text : QuoteElement := ⟨none, some "A", some ⟨some "/x"⟩⟩

/-- Test fixture: an entry block whose anchor has no `href` attribute, so
`get_href` yields the empty detail link. -/
def e_empty_href : QuoteElement := ⟨some "q", some "a", some ⟨none⟩⟩

/-- Test fixture: the record the crawl emits for `e_no_text`. -/
def record_no_text : QuoteInfo :=
  { quote := "", author := "A", bio_href := "/x", birthdate := "",
    birthplace := "", description := "" }

/-- Test fixture: the record the crawl emits for `e_full` against a detail
page with no Born and no description block. -/
def record_full : QuoteInfo :=
  { quote := "q", author := "a", bio_href := "/author/X", birthdate := "",
    birthplace := "", description := "" }

/-- Test fixture: page 1 holds the single entry `e_no_text`. -/
def page_fetch_one : String → Option QuotePage := fun u =>
  if u = "https://quotes.toscrape.com/page/1/" then some ⟨[e_no_text]⟩ else none

/-- Test fixture: every page fetch succeeds with one full entry, except the
fetch of page 2, which fails. -/
def page_fetch_fail2 : String → Option QuotePage := fun u =>
  if u = "https://quotes.toscrape.com/page/2/" then none else some ⟨[e_full]⟩

/-- Test fixture: page 1 holds the single entry `e_empty_href`. -/
def page_fetch_empty_href : String → Option QuotePage := fun u =>
  if u = "https://quotes.toscrape.com/page/1/" then some ⟨[e_empty_href]⟩ else none

/-- Test fixture: every detail fetch yields a page with no Born block and no
description block. -/
def detail_fetch_blank : String → Option AuthorPage := fun _ => some ⟨none, none⟩

/-- Test fixture: every detail fetch yields a page whose Born block parses. -/
def detail_fetch_born : String → Option AuthorPage := fun _ =>
  some ⟨some "Born: May 1, 1900 in X", none⟩

/-- Test fixture: like `detail_fetch_born` except that fetching `BASE_URL`
itself fails; the two fetchers differ only at `BASE_URL`. -/
def detail_fetch_failbase : String → Option AuthorPage := fun u =>
  if u = BASE_URL then none else some ⟨some "Born: May 1, 1900 in X", none⟩

/-! ### Helper lemmas about the string embedding -/

theorem pyStrip_data (s : String) :
    (pyStrip s).data = List.rdropWhile pySpace (s.data.dropWhile pySpace) := rfl

theorem head?_dropWhile {α : Type} (p : α → Bool) (m : List α) (c : α)
    (h : (m.dropWhile p).head? = some c) : p c = false := by
  induction m with
  | nil => simp [List.dropWhile] at h
  | cons a l ih =>
    rw [List.dropWhile_cons] at h
    by_cases hpa : p a
    · rw [if_pos hpa] at h
      exact ih h
    · rw [if_neg hpa] at h
      simp only [List.head?_cons, Option.some.injEq] at h
      rw [← h]
      exact Bool.eq_false_iff.mpr hpa

theorem head?_of_prefix_rel {α : Type} {l m : List α} (h : l <+: m) {c : α}
    (hc : l.head? = some c) : m.head? = some c := by
  obtain ⟨u, rfl⟩ := h
  cases l with
  | nil => simp at hc
  | cons a t => simpa using hc

theorem isStripped_pyStrip (s : String) : isStripped (pyStrip s) = true := by
  unfold isStripped
  rw [pyStrip_data]
  cases hl : List.rdropWhile pySpace (s.data.dropWhile pySpace) with
  | nil => rfl
  | cons c t =>
    have h1 : (List.rdropWhile pySpace (s.data.dropWhile pySpace)).head? = some c := by
      rw [hl]; rfl
    have h2 : (s.data.dropWhile pySpace).head? = some c :=
      head?_of_prefix_rel ( List.rdropWhile_prefix _ _) h1
    have hc : pySpace c = false := head?_dropWhile pySpace s.data c h2
    have h3 : (c :: t).getLast? =
        (List.rdropWhile pySpace (s.data.dropWhile pySpace)).getLast? := by
      rw [hl]
    unfold List.rdropWhile at h3
    rw [List.getLast?_reverse] at h3
    cases h4 : ((s.data.dropWhile pySpace).reverse.dropWhile pySpace).head? with
    | none =>
      rw [h4] at h3
      rw [List.getLast?_eq_getLast (c :: t) (List.cons_ne_nil c t)] at h3
      simp at h3
    | some d =>
      have hd : pySpace d = false := head?_dropWhile pySpace _ d h4
      rw [h4] at h3
      simp only [List.head?_cons, h3]
      simp [hc, hd]

-- sanity checks of the string embedding
example : pySplit "a in b in c" " in " = ["a", "b", "c"] := by decide
example : pySplit "Born: x" ": " = ["Born", "x"] := by decide
example : pySplit "" ": " = [""] := by decide
example : pyStrip "  ab " = "ab" := by decide
example :
    scrape_author_info ⟨some "Born: September 16, 1977 in New York City", none⟩ =
      { birthdate := some "September 16, 1977",
        birthplace := some "New York City",
        description := some "" } := by decide
example :
    scrape_author_info ⟨some "Born: 1977", some "bio"⟩ =
      { birthdate := some "1977", birthplace := none, description := some "bio" } := by
  decide

/-! ### Helper lemmas about the crawl loops -/

theorem scrape_page_elements_nil (df : String → Option AuthorPage)
    (qs : List QuoteInfo) : scrape_page_elements df qs [] = some qs := rfl

theorem scrape_page_elements_cons_none {df : String → Option AuthorPage}
    {e : QuoteElement} (qs : List QuoteInfo) (es : List QuoteElement)
    (hp : process_quote_element df e = none) :
    scrape_page_elements df qs (e :: es) = none := by
  simp [scrape_page_elements, List.foldlM_cons, hp]

theorem scrape_page_elements_cons_some {df : String → Option AuthorPage}
    {e : QuoteElement} {qi : QuoteInfo} (qs : List QuoteInfo)
    (es : List QuoteElement) (hp : process_quote_element df e = some qi) :
    scrape_page_elements df qs (e :: es) = scrape_page_elements df (qs ++ [qi]) es := by
  simp [scrape_page_elements, List.foldlM_cons, hp]

theorem scrape_page_elements_eq (df : String → Option AuthorPage)
    (elements : List QuoteElement) :
    ∀ qs : List QuoteInfo,
      scrape_page_elements df qs elements =
        (mapOption (process_quote_element df) elements).map fun l => qs ++ l := by
  induction elements with
  | nil => intro qs; simp [scrape_page_elements_nil, mapOption]
  | cons e es ih =>
    intro qs
    cases hp : process_quote_element df e with
    | none => simp [scrape_page_elements_cons_none qs es hp, mapOption, hp]
    | some qi =>
      rw [scrape_page_elements_cons_some qs es hp, ih (qs ++ [qi])]
      simp only [mapOption, hp]
      cases hm : mapOption (process_quote_element df) es with
      | none => simp [hm]
      | some l => simp [hm]

theorem mapOption_length {α β : Type} (f : α → Option β) (l : List α) :
    ∀ r : List β, mapOption f l = some r → r.length = l.length := by
  induction l with
  | nil =>
    intro r h
    simp only [mapOption, Option.some.injEq] at h
    simp [← h]
  | cons a t ih =>
    intro r h
    simp only [mapOption] at h
    cases hf : f a with
    | none => simp [hf] at h
    | some b =>
      simp only [hf] at h
      cases hm : mapOption f t with
      | none => simp [hm] at h
      | some l' =>
        simp only [hm, Option.map_some', Option.some.injEq] at h
        rw [← h]
        simp [ih l' hm]

theorem mapOption_get {α β : Type} (f : α → Option β) (l : List α) :
    ∀ r : List β, mapOption f l = some r →
      ∀ (i : Nat) (hi : i < r.length) (hl : i < l.length),
        f (l.get ⟨i, hl⟩) = some (r.get ⟨i, hi⟩) := by
  induction l with
  | nil => intro r h i hi hl; simp at hl
  | cons a t ih =>
    intro r h i hi hl
    simp only [mapOption] at h
    cases hf : f a with
    | none => simp [hf] at h
    | some b =>
      simp only [hf] at h
      cases hm : mapOption f t with
      | none => simp [hm] at h
      | some l' =>
        simp only [hm, Option.map_some', Option.some.injEq] at h
        subst h
        cases i with
        | zero => simpa using hf
        | succ j =>
          have hj : j < l'.length := by simpa using hi
          have hj' : j < t.length := by simpa using hl
          simpa using ih l' hm j hj hj'

theorem mapOption_eq_none_of_mem {α β : Type} (f : α → Option β) {l : List α}
    {a : α} (ha : a ∈ l) (hf : f a = none) : mapOption f l = none := by
  induction l with
  | nil => simp at ha
  | cons b t ih =>
    simp only [mapOption]
    rcases List.mem_cons.mp ha with rfl | hat
    · simp [hf]
    · cases hb : f b with
      | none => simp
      | some c => simp [ih hat]

theorem scrape_quotes_loop (page_fetch : String → Option QuotePage)
    (detail_fetch : String → Option AuthorPage) (url : String)
    (ps : List Int) :
    ∀ acc : List QuoteInfo,
      ps.foldlM
        (fun quotes page =>
          match page_fetch (s!"{url}/page/{page}/") with
          | none => none
          | some soup => scrape_page_elements detail_fetch quotes soup.quote_elements)
        acc
      = (mapOption (page_records page_fetch detail_fetch url) ps).map
          fun ls => acc ++ ls.flatten := by
  induction ps with
  | nil => intro acc; simp [mapOption]
  | cons p ps ih =>
    intro acc
    rw [List.foldlM_cons]
    cases hpf : page_fetch (s!"{url}/page/{p}/") with
    | none =>
      have hpr : page_records page_fetch detail_fetch url p = none := by
        simp [page_records, hpf]
      simp [hpf, mapOption, hpr]
    | some soup =>
      have hse := scrape_page_elements_eq detail_fetch soup.quote_elements acc
      cases hm : mapOption (process_quote_element detail_fetch) soup.quote_elements with
      | none =>
        have hpr : page_records page_fetch detail_fetch url p = none := by
          simp [page_records, hpf, hm]
        rw [hm] at hse
        simp [hpf, hse, mapOption, hpr]
      | some pl =>
        have hpr : page_records page_fetch detail_fetch url p = some pl := by
          simp [page_records, hpf, hm]
        rw [hm] at hse
        simp only [hpf, hse, Option.map_some', Option.bind_eq_bind, Option.some_bind]
        rw [ih (acc ++ pl)]
        simp only [mapOption, hpr]
        cases hms : mapOption (page_records page_fetch detail_fetch url) ps with
        | none => simp
        | some ls => simp [List.append_assoc]

theorem scrape_quotes_eq_pages (page_fetch : String → Option QuotePage)
    (detail_fetch : String → Option AuthorPage) (url : String) (num_pages : Int) :
    scrape_quotes page_fetch detail_fetch url num_pages =
      (mapOption (page_records page_fetch detail_fetch url)
          (pages_range num_pages)).map fun ls => ls.flatten := by
  unfold scrape_quotes
  rw [scrape_quotes_loop]
  cases mapOption (page_records page_fetch detail_fetch url) (pages_range num_pages) with
  | none => rfl
  | some ls => simp

theorem process_quote_element_eq (df : String → Option AuthorPage)
    (e : QuoteElement) :
    process_quote_element df e =
      (df (urljoin BASE_URL (get_href e.span_a))).map fun page =>
        { quote := get_text e.span_text, author := get_text e.small_author,
          bio_href := get_href e.span_a,
          birthdate := (scrape_author_info page).birthdate.getD "",
          birthplace := (scrape_author_info page).birthplace.getD "",
          description := (scrape_author_info page).description.getD "" } := by
  unfold process_quote_element
  dsimp only
  cases df (urljoin BASE_URL (get_href e.span_a)) <;> rfl

theorem scrape_author_info_description (soup : AuthorPage) :
    (scrape_author_info soup).description = some (soup.author_description.getD "") := rfl

/-! ### Claims -/

/-- Claim C1 is false on the code: an entry block missing the quote text is
not dropped — `get_text` returns `""` for the missing `span.text` and the
entry is emitted as a record with an empty `Quote` field.  Page 1 holds a
single entry with no `span.text`; the crawl emits one record whose `quote`
is the empty string. -/
theorem C1_counterexample :
    scrape_quotes page_fetch_one detail_fetch_blank BASE_URL 1 =
      some [{ quote := "", author := "A", bio_href := "/x",
              birthdate := "", birthplace := "", description := "" }] := by
  decide

/-- Claim C1 amended: the List Extractor drops no entry.  Every entry block of
a successfully processed page yields exactly one record, in order, whose
`quote` and `author` fields are the `get_text` of the corresponding elements —
the empty string when the element is missing, not an excluded entry. -/
theorem C1_amended (df : String → Option AuthorPage)
    (elements : List QuoteElement) (qs : List QuoteInfo)
    (h : scrape_page_elements df [] elements = some qs) :
    qs.length = elements.length ∧
      ∀ (i : Nat) (hq : i < qs.length) (he : i < elements.length),
        (qs.get ⟨i, hq⟩).quote = get_text ((elements.get ⟨i, he⟩).span_text) ∧
          (qs.get ⟨i, hq⟩).author = get_text ((elements.get ⟨i, he⟩).small_author) := by
  rw [scrape_page_elements_eq] at h
  cases hm : mapOption (process_quote_element df) elements with
  | none => rw [hm] at h; simp at h
  | some l =>
    rw [hm] at h
    simp only [Option.map_some', Option.some.injEq, List.nil_append] at h
    subst h
    refine ⟨mapOption_length _ _ _ hm, ?_⟩
    intro i hq he
    have hp := mapOption_get _ _ _ hm i hq he
    rw [process_quote_element_eq] at hp
    cases hd : df (urljoin BASE_URL (get_href ((elements.get ⟨i, he⟩).span_a))) with
    | none => rw [hd] at hp; simp at hp
    | some page =>
      rw [hd] at hp
      simp only [Option.map_some', Option.some.injEq] at hp
      rw [← hp]
      exact ⟨rfl, rfl⟩

/-- Witness for `C1_amended` at a concrete input: the page consisting of the
single no-text entry yields exactly one record with empty quote text. -/
theorem C1_amended_witness :
    [record_no_text].length = [e_no_text].length ∧
      ∀ (i : Nat) (hq : i < [record_no_text].length) (he : i < [e_no_text].length),
        ([record_no_text].get ⟨i, hq⟩).quote =
            get_text (([e_no_text].get ⟨i, he⟩).span_text) ∧
          ([record_no_text].get ⟨i, hq⟩).author =
            get_text (([e_no_text].get ⟨i, he⟩).small_author) :=
  C1_amended detail_fetch_blank [e_no_text] [record_no_text] (by decide)

/-- Claim C2 is false on the code: `scrape_quotes` has no error handling
around the page fetch, so a failing page aborts the whole run instead of
being skipped.  Here pages 1 and 3 fetch fine and only page 2 fails, yet the
crawl yields nothing at all — not the records of pages 1 and 3. -/
theorem C2_counterexample :
    scrape_quotes page_fetch_fail2 detail_fetch_blank BASE_URL 3 = none ∧
      page_fetch_fail2 "https://quotes.toscrape.com/page/1/" = some ⟨[e_full]⟩ ∧
      page_fetch_fail2 "https://quotes.toscrape.com/page/2/" = none ∧
      page_fetch_fail2 "https://quotes.toscrape.com/page/3/" = some ⟨[e_full]⟩ := by
  refine ⟨by decide, by decide, by decide, by decide⟩

/-- Claim C2 amended: if fetching any page of the crawl never succeeds, the
whole run produces no record list at all — the failure propagates out of the
pagination loop instead of the page being skipped. -/
theorem C2_amended (page_fetch : String → Option QuotePage)
    (detail_fetch : String → Option AuthorPage) (url : String) (n : Int)
    (page : Int) (hmem : page ∈ pages_range n)
    (hfail : page_fetch (s!"{url}/page/{page}/") = none) :
    scrape_quotes page_fetch detail_fetch url n = none := by
  rw [scrape_quotes_eq_pages]
  have hpr : page_records page_fetch detail_fetch url page = none := by
    simp [page_records, hfail]
  rw [mapOption_eq_none_of_mem _ hmem hpr]
  rfl

/-- Witness for `C2_amended`: page 2 of 3 fails, so the crawl returns nothing. -/
theorem C2_amended_witness :
    scrape_quotes page_fetch_fail2 detail_fetch_blank BASE_URL 3 = none :=
  C2_amended page_fetch_fail2 detail_fetch_blank BASE_URL 3 2 (by decide) (by decide)

/-- Claim C3 describes the intended behavior, but the code has unbounded
retry: `@retry` is given only wait parameters and no
`stop_max_attempt_number`/`stop_max_delay`, so the `retrying` library's stop
predicate is constantly false.  On a URL whose every attempt fails the loop
never terminates — for every finite number of attempts it is still running
and no `FetchError` (or any exception) is ever surfaced.  Moreover the waits
are `min(2000·2^k, 10000)` ms after the `k`-th failure: 4 s, 8 s, then 10 s
capped — not a schedule starting at the initial delay of 2 s. -/
theorem C3_unbounded_retry :
    (∀ fuel n : Nat, retry_loop (fun _ => none) fuel n = none) ∧
      retry_wait_ms 1 = 4000 ∧ retry_wait_ms 2 = 8000 ∧
      retry_wait_ms 3 = 10000 ∧ retry_wait_ms 4 = 10000 ∧
      retry_wait_ms 5 = 10000 := by
  refine ⟨?_, by decide, by decide, by decide, by decide, by decide⟩
  intro fuel
  induction fuel with
  | zero => intro n; rfl
  | succ f ih => intro n; simpa [retry_loop] using ih (n + 1)

/-- Claim C4 is false on the code: a stub with an empty detail link IS passed
to the Fetcher.  `scrape_quotes` calls `scrape_author_info(urljoin(BASE_URL,
bio_href))` unconditionally, and `urljoin(BASE_URL, "")` is `BASE_URL`, so
the base URL itself is fetched.  `detail_fetch_born` and
`detail_fetch_failbase` agree on every URL except `BASE_URL`, yet the crawl
of a page holding one empty-link entry gives different results under them —
and under the first, enrichment scraped from the `BASE_URL` document even
lands in the emitted record. -/
theorem C4_counterexample :
    scrape_quotes page_fetch_empty_href detail_fetch_born BASE_URL 1 =
        some [{ quote := "q", author := "a", bio_href := "",
                birthdate := "May 1, 1900", birthplace := "X", description := "" }] ∧
      scrape_quotes page_fetch_empty_href detail_fetch_failbase BASE_URL 1 = none := by
  refine ⟨by decide, by decide⟩

/-- Claim C4 amended: an entry block with an empty or absent detail-link
attribute still yields `detailLink = ""` in the record, but the detail fetch
is nevertheless performed — at the base URL, to which the empty link
resolves; the loop body is exactly the Fetcher's answer at `BASE_URL` mapped
through record construction. -/
theorem C4_amended (df : String → Option AuthorPage) (e : QuoteElement)
    (h : get_href e.span_a = "") :
    process_quote_element df e =
      (df BASE_URL).map fun page =>
        { quote := get_text e.span_text, author := get_text e.small_author,
          bio_href := "",
          birthdate := (scrape_author_info page).birthdate.getD "",
          birthplace := (scrape_author_info page).birthplace.getD "",
          description := (scrape_author_info page).description.getD "" } := by
  rw [process_quote_element_eq, h]
  rfl

/-- Witness for `C4_amended`: the empty-href entry is processed by fetching
`BASE_URL`. -/
theorem C4_amended_witness :
    process_quote_element detail_fetch_born e_empty_href =
      (detail_fetch_born BASE_URL).map fun page =>
        { quote := get_text e_empty_href.span_text,
          author := get_text e_empty_href.small_author,
          bio_href := "",
          birthdate := (scrape_author_info page).birthdate.getD "",
          birthplace := (scrape_author_info page).birthplace.getD "",
          description := (scrape_author_info page).description.getD "" } :=
  C4_amended detail_fetch_born e_empty_href (by decide)

/-- Claim C5 is false on the code as a universal statement: Python's
`split(' in ')[1]` is the segment between the first and second occurrence of
the separator, not "the text after it".  On a Born block with two
occurrences the extractor yields only the middle segment as the birthplace
and silently discards the rest. -/
theorem C5_counterexample :
    scrape_author_info
        ⟨some "Born: September 16, 1977 in New York City in USA", none⟩ =
      { birthdate := some "September 16, 1977",
        birthplace := some "New York City", description := some "" } ∧
      (scrape_author_info
          ⟨some "Born: September 16, 1977 in New York City in USA", none⟩).birthplace ≠
        some "New York City in USA" := by
  refine ⟨by decide, by decide⟩

/-- Claim C5 amended: the remainder after the label is the segment of the
Born text between the first `": "` and the next one (if any); if `" in "`
occurs in that remainder, the birth date is the remainder up to the first
`" in "` and the birthplace is the segment between the first and second
occurrence of `" in "` (the whole rest only when the separator occurs once);
if `" in "` does not occur, the entire remainder becomes the birth date and
no birthplace is produced.  Both fields are stripped of surrounding
whitespace.  The spec's two named examples hold. -/
theorem C5_amended :
    (∀ (soup : AuthorPage) (bt x r d p : String) (rest rest2 : List String),
        soup.born_info = some bt →
        pySplit bt ": " = x :: r :: rest →
        pySplit r " in " = d :: p :: rest2 →
        (scrape_author_info soup).birthdate = some (pyStrip d) ∧
          (scrape_author_info soup).birthplace = some (pyStrip p)) ∧
      (∀ (soup : AuthorPage) (bt x r : String) (rest : List String),
        soup.born_info = some bt →
        pySplit bt ": " = x :: r :: rest →
        (pySplit r " in ").length ≤ 1 →
        (scrape_author_info soup).birthdate = some (pyStrip r) ∧
          (scrape_author_info soup).birthplace = none) ∧
      scrape_author_info ⟨some "Born: September 16, 1977 in New York City", none⟩ =
        { birthdate := some "September 16, 1977",
          birthplace := some "New York City", description := some "" } ∧
      scrape_author_info ⟨some "Born: 1977", none⟩ =
        { birthdate := some "1977", birthplace := none, description := some "" } := by
  refine ⟨?_, ?_, by decide, by decide⟩
  · rintro ⟨bi, ad⟩ bt x r d p rest rest2 hbi h1 h2
    simp only at hbi
    subst hbi
    unfold scrape_author_info
    simp only [h1, h2]
    refine ⟨?_, ?_⟩ <;> first | rfl | trivial
  · rintro ⟨bi, ad⟩ bt x r rest hbi h1 hlen
    simp only at hbi
    subst hbi
    unfold scrape_author_info
    simp only [h1]
    cases h2 : pySplit r " in " with
    | nil => exact ⟨rfl, rfl⟩
    | cons d t =>
      cases t with
      | nil => exact ⟨rfl, rfl⟩
      | cons p rest2 =>
        rw [h2] at hlen
        simp at hlen

/-- Witness for `C5_amended`: with two `" in "` occurrences the birthplace is
the middle segment, and with none the whole remainder is the birth date. -/
theorem C5_amended_witness :
    ((scrape_author_info ⟨some "Born: a in b in c", none⟩).birthdate = some (pyStrip "a") ∧
      (scrape_author_info ⟨some "Born: a in b in c", none⟩).birthplace = some (pyStrip "b")) ∧
      ((scrape_author_info ⟨some "Born: 1977", none⟩).birthdate = some (pyStrip "1977") ∧
        (scrape_author_info ⟨some "Born: 1977", none⟩).birthplace = none) :=
  ⟨C5_amended.1 ⟨some "Born: a in b in c", none⟩ "Born: a in b in c" "Born"
      "a in b in c" "a" "b" [] ["c"] rfl (by decide) (by decide),
    C5_amended.2.1 ⟨some "Born: 1977", none⟩ "Born: 1977" "Born" "1977" []
      rfl (by decide) (by decide)⟩

/-- Claim C6 is false on the code: there is no page-count validation anywhere
in `scrape_quotes` (or `main`).  With `num_pages = 0` or a negative count,
`range(1, num_pages + 1)` is empty, no fetch is attempted (every fetch here
would fail, yet the run still succeeds), and the crawl silently returns the
empty list instead of surfacing a configuration error. -/
theorem C6_counterexample :
    scrape_quotes (fun _ => none) (fun _ => none) BASE_URL 0 = some [] ∧
      scrape_quotes (fun _ => none) (fun _ => none) BASE_URL (-5) = some [] := by
  refine ⟨by decide, by decide⟩

/-- Claim C6 amended: a page count `≤ 0` is not an error at all — the
pagination range is empty, so the crawl performs no fetch and returns the
empty record list. -/
theorem C6_amended (page_fetch : String → Option QuotePage)
    (detail_fetch : String → Option AuthorPage) (url : String) (n : Int)
    (h : n ≤ 0) :
    scrape_quotes page_fetch detail_fetch url n = some [] := by
  have hpr : pages_range n = [] := by
    unfold pages_range
    rw [Int.toNat_of_nonpos h]
    rfl
  unfold scrape_quotes
  rw [hpr]
  rfl

/-- Witness for `C6_amended` at a negative page count. -/
theorem C6_amended_witness :
    scrape_quotes (fun _ => none) (fun _ => none) BASE_URL (-3) = some [] :=
  C6_amended (fun _ => none) (fun _ => none) BASE_URL (-3) (by decide)

theorem scrape_author_info_birthdate_stripped (soup : AuthorPage) :
    ∀ s, (scrape_author_info soup).birthdate = some s → isStripped s = true := by
  rcases soup with ⟨bi, ad⟩
  cases bi with
  | none => intro s hs; simp [scrape_author_info] at hs
  | some bt =>
    unfold scrape_author_info
    dsimp only
    cases h1 : pySplit bt ": " with
    | nil => intro s hs; simp at hs
    | cons x t =>
      cases t with
      | nil => intro s hs; simp at hs
      | cons r rest =>
        dsimp only
        cases h2 : pySplit r " in " with
        | nil =>
          intro s hs
          injection hs with h
          rw [← h]
          exact isStripped_pyStrip r
        | cons d t2 =>
          cases t2 with
          | nil =>
            intro s hs
            injection hs with h
            rw [← h]
            exact isStripped_pyStrip r
          | cons p rest2 =>
            intro s hs
            injection hs with h
            rw [← h]
            exact isStripped_pyStrip d

theorem scrape_author_info_birthplace_stripped (soup : AuthorPage) :
    ∀ s, (scrape_author_info soup).birthplace = some s → isStripped s = true := by
  rcases soup with ⟨bi, ad⟩
  cases bi with
  | none => intro s hs; simp [scrape_author_info] at hs
  | some bt =>
    unfold scrape_author_info
    dsimp only
    cases h1 : pySplit bt ": " with
    | nil => intro s hs; simp at hs
    | cons x t =>
      cases t with
      | nil => intro s hs; simp at hs
      | cons r rest =>
        dsimp only
        cases h2 : pySplit r " in " with
        | nil => intro s hs; simp at hs
        | cons d t2 =>
          cases t2 with
          | nil => intro s hs; simp at hs
          | cons p rest2 =>
            intro s hs
            injection hs with h
            rw [← h]
            exact isStripped_pyStrip p

theorem scrape_author_info_birthplace_needs_birthdate (soup : AuthorPage) :
    (scrape_author_info soup).birthplace.isSome = true →
      (scrape_author_info soup).birthdate.isSome = true := by
  rcases soup with ⟨bi, ad⟩
  cases bi with
  | none => intro h; simp [scrape_author_info] at h
  | some bt =>
    unfold scrape_author_info
    dsimp only
    cases h1 : pySplit bt ": " with
    | nil => intro h; simp at h
    | cons x t =>
      cases t with
      | nil => intro h; simp at h
      | cons r rest =>
        dsimp only
        cases h2 : pySplit r " in " with
        | nil => intro h; simp at h
        | cons d t2 =>
          cases t2 with
          | nil => intro h; simp at h
          | cons p rest2 => intro h; rfl

/-- Claim C7 confirmed: the Detail Extractor never fails on missing
structure — a detail page with neither a Born block nor a description block
still yields an enrichment dictionary (with only `description`, set to "") —
and the emitted record (which by construction carries all six fields)
defaults every unresolved enrichment field to the empty string via
`dict.get(key, "")`. -/
theorem C7_stable_fields (df : String → Option AuthorPage) (e : QuoteElement)
    (page : AuthorPage) (r : QuoteInfo)
    (hdf : df (urljoin BASE_URL (get_href e.span_a)) = some page)
    (hr : process_quote_element df e = some r) :
    scrape_author_info ⟨none, none⟩ =
        { birthdate := none, birthplace := none, description := some "" } ∧
      ((scrape_author_info page).birthdate = none → r.birthdate = "") ∧
      ((scrape_author_info page).birthplace = none → r.birthplace = "") ∧
      (page.born_info = none → r.birthdate = "" ∧ r.birthplace = "") ∧
      (page.author_description = none → r.description = "") := by
  rw [process_quote_element_eq, hdf] at hr
  simp only [Option.map_some', Option.some.injEq] at hr
  subst hr
  refine ⟨rfl, ?_, ?_, ?_, ?_⟩
  · intro h; dsimp only; rw [h]; rfl
  · intro h; dsimp only; rw [h]; rfl
  · intro h
    rcases page with ⟨bi, ad⟩
    simp only at h
    subst h
    exact ⟨rfl, rfl⟩
  · intro h
    rcases page with ⟨bi, ad⟩
    simp only at h
    subst h
    rfl

/-- Witness for `C7_stable_fields`: a complete entry enriched from a blank
detail page is emitted with all enrichment fields equal to `""`. -/
theorem C7_stable_fields_witness :
    (record_full.birthdate = "" ∧ record_full.birthplace = "") ∧
      record_full.description = "" :=
  ⟨(C7_stable_fields detail_fetch_blank e_full ⟨none, none⟩ record_full
      (by decide) (by decide)).2.2.2.1 rfl,
    (C7_stable_fields detail_fetch_blank e_full ⟨none, none⟩ record_full
      (by decide) (by decide)).2.2.2.2 rfl⟩

/-- Claim C8 confirmed: the crawl output is exactly the concatenation, over
the pages `1..num_pages` in ascending order, of each page's records in
document order (`mapOption` keeps both the page order and the within-page
element order; each record is appended in discovery order), and the pipeline
is deterministic: fetchers that agree on every URL — identical page
contents — give identical output. -/
theorem C8_ordering (page_fetch : String → Option QuotePage)
    (detail_fetch : String → Option AuthorPage) (url : String) (n : Int) :
    scrape_quotes page_fetch detail_fetch url n =
        (mapOption (page_records page_fetch detail_fetch url)
            (pages_range n)).map (fun ls => ls.flatten) ∧
      (pages_range n).Pairwise (· < ·) ∧
      ∀ (pf2 : String → Option QuotePage) (df2 : String → Option AuthorPage),
        (∀ u, page_fetch u = pf2 u) → (∀ u, detail_fetch u = df2 u) →
        scrape_quotes page_fetch detail_fetch url n =
          scrape_quotes pf2 df2 url n := by
  refine ⟨scrape_quotes_eq_pages page_fetch detail_fetch url n, ?_, ?_⟩
  · unfold pages_range
    refine List.Pairwise.map (fun i => Int.ofNat i + 1) ?_
      (List.pairwise_lt_range n.toNat)
    intro a b hab
    simp only [Int.ofNat_eq_coe]
    omega
  · intro pf2 df2 h1 h2
    rw [funext h1, funext h2]

/-- Witness for `C8_ordering` on a concrete two-page crawl. -/
theorem C8_ordering_witness :
    scrape_quotes page_fetch_fail2 detail_fetch_blank BASE_URL 2 =
        (mapOption (page_records page_fetch_fail2 detail_fetch_blank BASE_URL)
            (pages_range 2)).map (fun ls => ls.flatten) ∧
      (pages_range 2).Pairwise (· < ·) ∧
      scrape_quotes page_fetch_fail2 detail_fetch_blank BASE_URL 2 =
        scrape_quotes page_fetch_fail2 detail_fetch_blank BASE_URL 2 :=
  ⟨(C8_ordering page_fetch_fail2 detail_fetch_blank BASE_URL 2).1,
    (C8_ordering page_fetch_fail2 detail_fetch_blank BASE_URL 2).2.1,
    (C8_ordering page_fetch_fail2 detail_fetch_blank BASE_URL 2).2.2
      page_fetch_fail2 detail_fetch_blank (fun _ => rfl) (fun _ => rfl)⟩

/-- Claim C9 confirmed: the enrichment dictionary always carries the
`description` key, and it carries `birthplace` only when it also carries
`birthdate` — both keys are set in the same branch, and the fallback branch
sets `birthdate` alone. -/
theorem C9_enrichment_keys (soup : AuthorPage) :
    (scrape_author_info soup).description.isSome = true ∧
      ((scrape_author_info soup).birthplace.isSome = true →
        (scrape_author_info soup).birthdate.isSome = true) :=
  ⟨by rw [scrape_author_info_description]; rfl,
    scrape_author_info_birthplace_needs_birthdate soup⟩

/-- Witness for `C9_enrichment_keys` on a Born block that yields a
birthplace. -/
theorem C9_enrichment_keys_witness :
    (scrape_author_info ⟨some "Born: 1 in 2", none⟩).description.isSome = true ∧
      (scrape_author_info ⟨some "Born: 1 in 2", none⟩).birthdate.isSome = true :=
  ⟨(C9_enrichment_keys ⟨some "Born: 1 in 2", none⟩).1,
    (C9_enrichment_keys ⟨some "Born: 1 in 2", none⟩).2 (by decide)⟩

/-- Claim C10 confirmed: every birthdate and birthplace value the Detail
Extractor produces has been stripped of leading and trailing whitespace
(`.strip()` in the source), while the description is stored verbatim — it is
exactly the raw text of the description block, whitespace included. -/
theorem C10_whitespace (soup : AuthorPage) :
    (∀ s, (scrape_author_info soup).birthdate = some s → isStripped s = true) ∧
      (∀ s, (scrape_author_info soup).birthplace = some s → isStripped s = true) ∧
      (scrape_author_info soup).description = some (soup.author_description.getD "") :=
  ⟨scrape_author_info_birthdate_stripped soup,
    scrape_author_info_birthplace_stripped soup,
    scrape_author_info_description soup⟩

/-- Witness for `C10_whitespace`: padded Born fields come out stripped while
a padded description survives verbatim. -/
theorem C10_whitespace_witness :
    isStripped "a" = true ∧ isStripped "b" = true ∧
      (scrape_author_info ⟨some "Born:  a  in  b ", some "  d  "⟩).description =
        some "  d  " :=
  ⟨(C10_whitespace ⟨some "Born:  a  in  b ", some "  d  "⟩).1 "a" (by decide),
    (C10_whitespace ⟨some "Born:  a  in  b ", some "  d  "⟩).2.1 "b" (by decide),
    (C10_whitespace ⟨some "Born:  a  in  b ", some "  d  "⟩).2.2⟩
